import Mathlib

/-!
Verification of the fraud-analytics dashboard (src/app.py) against its
natural-language specification.

The dashboard loads four warehouse views into in-memory tables, derives
YEAR/MONTH calendar columns from timestamp columns, aggregates, reshapes,
and filters them according to user-selected values.  Tables are embedded
as lists of records; pandas column operations become list operations.

Timestamps: pandas to_datetime yields a value whose dt.year / dt.month
accessors decompose it into calendar parts.  We embed a timestamp as the
number of days since 1970-01-01 (a Nat; the warehouse only holds dates on
or after the epoch) and implement the civil-calendar decomposition that
dt.year / dt.month perform.
-/

/-- Days-since-epoch timestamp: day-of-era within the 400-year civil era,
obtained after shifting the epoch to 0000-03-01. -/
def doeOf (z : Nat) : Nat := (z + 719468) % 146097

/-- Era index (complete 400-year cycles before the day). -/
def eraOf (z : Nat) : Nat := (z + 719468) / 146097

/-- Year-of-era (0..399) of a days-since-epoch timestamp. -/
def yoeOf (z : Nat) : Nat :=
  (doeOf z - doeOf z / 1460 + doeOf z / 36524 - doeOf z / 146096) / 365

/-- Day-of-year (0-based, March-first calendar) of a timestamp. -/
def doyOf (z : Nat) : Nat :=
  doeOf z - (365 * yoeOf z + yoeOf z / 4 - yoeOf z / 100)

/-- Month index in the March-first calendar (0 = March). -/
def mpOf (z : Nat) : Nat := (5 * doyOf z + 2) / 153

/-- Calendar month (1..12) of a days-since-epoch timestamp; this is what
pandas dt.month returns for the parsed value. -/
def monthOfDays (z : Nat) : Nat :=
  if mpOf z < 10 then mpOf z + 3 else mpOf z - 9

/-- Calendar year of a days-since-epoch timestamp; this is what pandas
dt.year returns for the parsed value. -/
def yearOfDays (z : Nat) : Nat :=
  yoeOf z + 400 * eraOf z + (if monthOfDays z ≤ 2 then 1 else 0)

/-- Calendar day-of-month (1..31) of a days-since-epoch timestamp. -/
def dayOfDays (z : Nat) : Nat :=
  doyOf z - (153 * mpOf z + 2) / 5 + 1

/-- A raw row of GOLD.VW_FRAUD_TRENDS (app.py line 53): TXN_DATE,
TOTAL_TXNS, HIGH_RISK_TXNS. -/
structure RawTrendRow where
  TXN_DATE : Nat
  TOTAL_TXNS : Nat
  HIGH_RISK_TXNS : Nat
deriving DecidableEq, Repr

/-- A trend row after the derivation layer added YEAR and MONTH
(app.py lines 54-56). -/
structure TrendRow where
  TXN_DATE : Nat
  TOTAL_TXNS : Nat
  HIGH_RISK_TXNS : Nat
  YEAR : Nat
  MONTH : Nat
deriving DecidableEq, Repr

/-- app.py lines 54-56: parse TXN_DATE, add YEAR and MONTH columns
derived from it. -/
def deriveTrend (t : List RawTrendRow) : List TrendRow :=
  t.map (fun r =>
    { TXN_DATE := r.TXN_DATE
      TOTAL_TXNS := r.TOTAL_TXNS
      HIGH_RISK_TXNS := r.HIGH_RISK_TXNS
      YEAR := yearOfDays r.TXN_DATE
      MONTH := monthOfDays r.TXN_DATE })

/-- Running the derivation of app.py lines 54-56 again over an
already-derived table: TXN_DATE is unchanged, YEAR and MONTH are
recomputed from it. -/
def deriveTrendAgain (t : List TrendRow) : List TrendRow :=
  t.map (fun r =>
    { r with YEAR := yearOfDays r.TXN_DATE, MONTH := monthOfDays r.TXN_DATE })

example : yearOfDays 0 = 1970 ∧ monthOfDays 0 = 1 ∧ dayOfDays 0 = 1 := by decide
example : yearOfDays 19358 = 2023 ∧ monthOfDays 19358 = 1 ∧ dayOfDays 19358 = 1 := by decide
example : yearOfDays 19357 = 2022 ∧ monthOfDays 19357 = 12 ∧ dayOfDays 19357 = 31 := by decide
example : yearOfDays 11016 = 2000 ∧ monthOfDays 11016 = 2 ∧ dayOfDays 11016 = 29 := by decide

/-- app.py line 63: yearly_df = trend_df.groupby("YEAR")["HIGH_RISK_TXNS"].sum()
.reset_index().  One output pair per distinct YEAR value, carrying the sum
of HIGH_RISK_TXNS over the rows of that year. -/
def groupbySumYearHigh (t : List TrendRow) : List (Nat × Nat) :=
  (t.map TrendRow.YEAR).dedup.map
    (fun y => (y, ((t.filter (fun r => r.YEAR = y)).map TrendRow.HIGH_RISK_TXNS).sum))

/-- The long-form row produced by melt (app.py lines 139-144):
var_name="TYPE", value_name="COUNT". -/
structure LongRow where
  TXN_DATE : Nat
  TYPE : String
  COUNT : Nat
deriving DecidableEq, Repr

/-- app.py lines 139-144: melt with id_vars=["TXN_DATE"] and
value_vars=["TOTAL_TXNS", "HIGH_RISK_TXNS"]: pandas stacks one block per
value column, each original row contributing one long row per value column,
tagged with the originating column name. -/
def meltTotalHigh (t : List TrendRow) : List LongRow :=
  t.map (fun r => { TXN_DATE := r.TXN_DATE, TYPE := "TOTAL_TXNS", COUNT := r.TOTAL_TXNS })
    ++ t.map (fun r => { TXN_DATE := r.TXN_DATE, TYPE := "HIGH_RISK_TXNS", COUNT := r.HIGH_RISK_TXNS })

/-- A row of GOLD.VW_FRAUD_KPI (app.py line 39). -/
structure KpiRow where
  TOTAL_TXNS : Int
  TOTAL_AMOUNT : Int
  HIGH_RISK_TXNS : Int
  MEDIUM_RISK_TXNS : Int
  LOW_RISK_TXNS : Int
deriving DecidableEq, Repr

/-- Label-based access series[0] on a pandas column read via read_sql: the
default RangeIndex labels rows 0..n-1, so label 0 is the first row; on an
empty column the lookup raises KeyError. -/
def seriesAt0 (c : List α) : Except String α :=
  match c with
  | [] => Except.error "KeyError: 0"
  | v :: _ => Except.ok v

/-- app.py lines 42-46: the KPI section reads kpi_df[col][0] for the five
metric columns and renders them.  Result: the five displayed metric values,
or the first error raised. -/
def kpiSection (t : List KpiRow) : Except String (Int × Int × Int × Int × Int) := do
  let tot ← seriesAt0 (t.map KpiRow.TOTAL_TXNS)
  let amt ← seriesAt0 (t.map KpiRow.TOTAL_AMOUNT)
  let hi ← seriesAt0 (t.map KpiRow.HIGH_RISK_TXNS)
  let med ← seriesAt0 (t.map KpiRow.MEDIUM_RISK_TXNS)
  let low ← seriesAt0 (t.map KpiRow.LOW_RISK_TXNS)
  pure (tot, amt, hi, med, low)

/-- A raw row of GOLD.VW_FRAUD_DASHBOARD (app.py line 179): TXN_TIME,
LOCATION (nullable), FRAUD_RISK_LEVEL, plus additional descriptive columns
(kept abstract in the extra field). -/
structure RawDashRow where
  TXN_TIME : Nat
  LOCATION : Option String
  FRAUD_RISK_LEVEL : String
  extra : Nat
deriving DecidableEq, Repr

/-- A drill-down row after the derivation layer added YEAR and MONTH
(app.py lines 180-182). -/
structure DashRow where
  TXN_TIME : Nat
  LOCATION : Option String
  FRAUD_RISK_LEVEL : String
  extra : Nat
  YEAR : Nat
  MONTH : Nat
deriving DecidableEq, Repr

/-- app.py lines 180-182: parse TXN_TIME, add YEAR and MONTH columns
derived from it. -/
def deriveDash (t : List RawDashRow) : List DashRow :=
  t.map (fun r =>
    { TXN_TIME := r.TXN_TIME
      LOCATION := r.LOCATION
      FRAUD_RISK_LEVEL := r.FRAUD_RISK_LEVEL
      extra := r.extra
      YEAR := yearOfDays r.TXN_TIME
      MONTH := monthOfDays r.TXN_TIME })

/-- Running the derivation of app.py lines 180-182 again over an
already-derived drill-down table: TXN_TIME is unchanged, YEAR and MONTH
are recomputed from it. -/
def deriveDashAgain (t : List DashRow) : List DashRow :=
  t.map (fun r =>
    { r with YEAR := yearOfDays r.TXN_TIME, MONTH := monthOfDays r.TXN_TIME })

/-- app.py lines 204-213: filtered_df.  First the joint boolean mask
(YEAR == year) & (MONTH == month); then, if city is not the sentinel "ALL",
keep rows with LOCATION == city (a null LOCATION compares unequal to every
city); then, if risk is not "ALL", keep rows with FRAUD_RISK_LEVEL == risk. -/
def filtered_df (dash : List DashRow) (year month : Nat) (city risk : String) :
    List DashRow :=
  let t1 := dash.filter (fun r => r.YEAR = year ∧ r.MONTH = month)
  let t2 := if city ≠ "ALL" then t1.filter (fun r => r.LOCATION = some city) else t1
  if risk ≠ "ALL" then t2.filter (fun r => r.FRAUD_RISK_LEVEL = risk) else t2

/-- The conjunction of the four filter predicates with their "ALL"
sentinel bypasses, as one boolean row predicate. -/
def rowPred (year month : Nat) (city risk : String) (r : DashRow) : Prop :=
  r.YEAR = year ∧ r.MONTH = month ∧
    (city = "ALL" ∨ r.LOCATION = some city) ∧
    (risk = "ALL" ∨ r.FRAUD_RISK_LEVEL = risk)

instance (year month : Nat) (city risk : String) (r : DashRow) :
    Decidable (rowPred year month city risk r) := by
  unfold rowPred; infer_instance

/-- The four individual filter predicates, indexed in the program's order:
0 = year, 1 = month, 2 = city (with "ALL" bypass), 3 = risk level (with
"ALL" bypass). -/
def filterPredIdx (year month : Nat) (city risk : String) : Fin 4 → DashRow → Bool
  | 0 => fun r => r.YEAR = year
  | 1 => fun r => r.MONTH = month
  | 2 => fun r => city = "ALL" ∨ r.LOCATION = some city
  | 3 => fun r => risk = "ALL" ∨ r.FRAUD_RISK_LEVEL = risk

/-- Applying a chosen sequence of the four filters, one after the other. -/
def applySeq (year month : Nat) (city risk : String) :
    List (Fin 4) → List DashRow → List DashRow
  | [], t => t
  | i :: is, t => applySeq year month city risk is (t.filter (filterPredIdx year month city risk i))

/-- The options offered by the risk-level selector (app.py lines 199-202). -/
def riskOptions : List String := ["ALL", "HIGH_RISK", "MEDIUM_RISK", "LOW_RISK"]

/-- The options offered by the city selector (app.py lines 193-196):
"ALL" followed by the distinct non-null locations of the drill-down table. -/
def cityOptions (dash : List DashRow) : List String :=
  "ALL" :: ((dash.map DashRow.LOCATION).reduceOption.dedup.mergeSort (· ≤ ·))

/-- The selector state feeding the render pass: one value per selector
(app.py lines 78-81, 102-113, 133-137, 187-202). -/
structure Selections where
  year_m : Nat
  year_d : Nat
  month_d : Nat
  year_c : Nat
  year : Nat
  month : Nat
  city : String
  risk : String
deriving DecidableEq, Repr

/-- The SQL texts passed to run_query during one render pass, in program
order (app.py lines 39, 53, 162, 179).  All four are string literals in
the source; no selector value reaches them. -/
def sqlQueriesExecuted (_s : Selections) : List String :=
  ["SELECT * FROM GOLD.VW_FRAUD_KPI",
   "SELECT * FROM GOLD.VW_FRAUD_TRENDS",
   "SELECT * FROM GOLD.VW_LOCATION_RISK",
   "SELECT * FROM GOLD.VW_FRAUD_DASHBOARD"]

/-! ## Helper lemmas -/

theorem doy_le (z : Nat) : doyOf z ≤ 469 := by
  unfold doyOf yoeOf doeOf
  omega

theorem mp_le (z : Nat) : mpOf z ≤ 15 := by
  unfold mpOf
  have := doy_le z
  omega

theorem month_bounds (z : Nat) : 1 ≤ monthOfDays z ∧ monthOfDays z ≤ 12 := by
  unfold monthOfDays
  have := mp_le z
  split <;> omega

/-- The cascading filter of app.py lines 204-213 equals one pass of the
conjoined predicate. -/
theorem filtered_df_eq_filter (dash : List DashRow) (year month : Nat)
    (city risk : String) :
    filtered_df dash year month city risk
      = dash.filter (fun r => rowPred year month city risk r) := by
  unfold filtered_df
  by_cases hc : city = "ALL" <;> by_cases hr : risk = "ALL" <;>
    simp only [hc, hr, ne_eq, not_true_eq_false, not_false_eq_true, if_true,
      if_false, ite_true, ite_false, List.filter_filter] <;>
    · apply List.filter_congr
      intro r _
      simp [rowPred, hc, hr, Bool.and_comm, Bool.and_left_comm, Bool.and_assoc]

/-- Concrete drill-down rows and tables used to instantiate the filter
theorems. -/
def wRow1 : DashRow :=
  { TXN_TIME := 19358, LOCATION := some "NYC", FRAUD_RISK_LEVEL := "HIGH_RISK",
    extra := 1, YEAR := 2023, MONTH := 1 }

def wRow2 : DashRow :=
  { TXN_TIME := 19358, LOCATION := some "LA", FRAUD_RISK_LEVEL := "LOW_RISK",
    extra := 2, YEAR := 2023, MONTH := 1 }

def wTable : List DashRow := [wRow1, wRow2]

def nycTable : List DashRow :=
  [{ TXN_TIME := 19358, LOCATION := some "NYC", FRAUD_RISK_LEVEL := "HIGH_RISK",
     extra := 1, YEAR := 2023, MONTH := 1 },
   { TXN_TIME := 19359, LOCATION := some "NYC", FRAUD_RISK_LEVEL := "LOW_RISK",
     extra := 2, YEAR := 2023, MONTH := 1 }]

def weirdRow : DashRow :=
  { TXN_TIME := 19358, LOCATION := some "NYC", FRAUD_RISK_LEVEL := "WEIRD",
    extra := 7, YEAR := 2023, MONTH := 1 }

def weirdTable : List DashRow := [weirdRow]

def nullLocRow : DashRow :=
  { TXN_TIME := 19358, LOCATION := none, FRAUD_RISK_LEVEL := "HIGH_RISK",
    extra := 3, YEAR := 2023, MONTH := 1 }

def nullLocTable : List DashRow := [nullLocRow]

/-- C1: every row in the result of the drill-down filter satisfies
YEAR == year, MONTH == month, (city == "ALL" or LOCATION == city) and
(riskLevel == "ALL" or FRAUD_RISK_LEVEL == riskLevel); and every row of
the table satisfying all of these appears in the result exactly once. -/
theorem filter_conjunction_exact
    (dash : List DashRow) (year month : Nat) (city risk : String) (r : DashRow)
    (hnd : dash.Nodup) :
    (r ∈ filtered_df dash year month city risk → rowPred year month city risk r) ∧
    (r ∈ dash → rowPred year month city risk r →
      (filtered_df dash year month city risk).count r = 1) := by
  rw [filtered_df_eq_filter]
  constructor
  · intro h
    simpa using (List.mem_filter.mp h).2
  · intro hm hp
    rw [List.count_filter (by simpa using hp)]
    exact List.count_eq_one_of_mem hnd hm

theorem filter_conjunction_exact_witness :
    (filtered_df wTable 2023 1 "NYC" "HIGH_RISK").count wRow1 = 1 :=
  (filter_conjunction_exact wTable 2023 1 "NYC" "HIGH_RISK" wRow1 (by decide)).2
    (by decide) (by decide)

/-- C7: a filter selection matching zero rows yields the empty table (the
filter is a total operation: no error is possible). -/
theorem empty_result_non_error (dash : List DashRow) (year month : Nat)
    (city risk : String)
    (h : ∀ r ∈ dash, ¬ rowPred year month city risk r) :
    filtered_df dash year month city risk = [] := by
  rw [filtered_df_eq_filter, List.filter_eq_nil_iff]
  intro a ha
  simpa using h a ha

theorem empty_result_non_error_witness :
    filtered_df nycTable 2023 1 "LA" "ALL" = [] :=
  empty_result_non_error nycTable 2023 1 "LA" "ALL" (by decide)

/-- C8: a row whose FRAUD_RISK_LEVEL is outside
{HIGH_RISK, MEDIUM_RISK, LOW_RISK} is never included in the filtered
result when the risk selector holds any offered value other than "ALL". -/
theorem unknown_risk_never_selected (dash : List DashRow) (year month : Nat)
    (city risk : String) (r : DashRow) (_hr : r ∈ dash)
    (hlev : r.FRAUD_RISK_LEVEL ∉ ["HIGH_RISK", "MEDIUM_RISK", "LOW_RISK"])
    (hopt : risk ∈ riskOptions) (hne : risk ≠ "ALL") :
    r ∉ filtered_df dash year month city risk := by
  rw [filtered_df_eq_filter]
  intro hmem
  have hp : rowPred year month city risk r := by
    simpa using (List.mem_filter.mp hmem).2
  obtain ⟨-, -, -, hrisk⟩ := hp
  rcases hrisk with h | h
  · exact hne h
  · have hopt3 : risk = "HIGH_RISK" ∨ risk = "MEDIUM_RISK" ∨ risk = "LOW_RISK" := by
      simp only [riskOptions, List.mem_cons, List.not_mem_nil, or_false] at hopt
      tauto
    rcases hopt3 with rfl | rfl | rfl <;> simp [h] at hlev
  
theorem unknown_risk_never_selected_witness :
    weirdRow ∉ filtered_df weirdTable 2023 1 "ALL" "HIGH_RISK" :=
  unknown_risk_never_selected weirdTable 2023 1 "ALL" "HIGH_RISK" weirdRow
    (by decide) (by decide) (by decide) (by decide)

/-- C10: a row with a null LOCATION is never included in the filtered
result when the city selector holds any value other than "ALL" (null
compares unequal to every city). -/
theorem null_location_only_all (dash : List DashRow) (year month : Nat)
    (city risk : String) (r : DashRow) (hloc : r.LOCATION = none)
    (hcity : city ≠ "ALL") :
    r ∉ filtered_df dash year month city risk := by
  rw [filtered_df_eq_filter]
  intro hmem
  have hp : rowPred year month city risk r := by
    simpa using (List.mem_filter.mp hmem).2
  obtain ⟨-, -, hc, -⟩ := hp
  rcases hc with h | h
  · exact hcity h
  · rw [hloc] at h
    cases h

theorem null_location_only_all_witness :
    nullLocRow ∉ filtered_df nullLocTable 2023 1 "NYC" "ALL" :=
  null_location_only_all nullLocTable 2023 1 "NYC" "ALL" nullLocRow rfl (by decide)

/-- A two-row KPI source: the contract says this is a data-shape error
state. -/
def kpiTwoRows : List KpiRow :=
  [{ TOTAL_TXNS := 100, TOTAL_AMOUNT := 5000, HIGH_RISK_TXNS := 10,
     MEDIUM_RISK_TXNS := 20, LOW_RISK_TXNS := 70 },
   { TOTAL_TXNS := 999, TOTAL_AMOUNT := 1, HIGH_RISK_TXNS := 1,
     MEDIUM_RISK_TXNS := 1, LOW_RISK_TXNS := 1 }]

/-- C2 counterexample: on a KPI source with two rows the KPI section does
NOT surface an error; it silently reads the row at index 0. -/
theorem kpi_two_rows_no_error :
    kpiTwoRows.length = 2 ∧
      kpiSection kpiTwoRows = Except.ok (100, 5000, 10, 20, 70) :=
  ⟨rfl, rfl⟩

/-- C2 (amended): on a KPI source with zero rows the index-0 lookup fails
and the section surfaces an error; on one or more rows no error is raised
and the row at index 0 is read. -/
theorem kpi_cardinality_behavior (t : List KpiRow) :
    (t = [] → (kpiSection t).isOk = false) ∧
    (∀ r rest, t = r :: rest → kpiSection t =
      Except.ok (r.TOTAL_TXNS, r.TOTAL_AMOUNT, r.HIGH_RISK_TXNS,
        r.MEDIUM_RISK_TXNS, r.LOW_RISK_TXNS)) := by
  constructor
  · rintro rfl
    rfl
  · rintro r rest rfl
    rfl

theorem kpi_cardinality_behavior_witness :
    (kpiSection ([] : List KpiRow)).isOk = false ∧
      kpiSection kpiTwoRows = Except.ok (100, 5000, 10, 20, 70) :=
  ⟨(kpi_cardinality_behavior []).1 rfl,
   (kpi_cardinality_behavior kpiTwoRows).2
     { TOTAL_TXNS := 100, TOTAL_AMOUNT := 5000, HIGH_RISK_TXNS := 10,
       MEDIUM_RISK_TXNS := 20, LOW_RISK_TXNS := 70 }
     [{ TOTAL_TXNS := 999, TOTAL_AMOUNT := 1, HIGH_RISK_TXNS := 1,
        MEDIUM_RISK_TXNS := 1, LOW_RISK_TXNS := 1 }] rfl⟩

/-- C6: melting the two value columns of an N-row table yields exactly 2N
long rows, each tagged in TYPE with the originating column's name and
carrying that column's value from the originating row in COUNT. -/
theorem melt_shape (t : List TrendRow) :
    (meltTotalHigh t).length = 2 * t.length ∧
    ∀ lr ∈ meltTotalHigh t, ∃ r ∈ t, lr.TXN_DATE = r.TXN_DATE ∧
      ((lr.TYPE = "TOTAL_TXNS" ∧ lr.COUNT = r.TOTAL_TXNS) ∨
       (lr.TYPE = "HIGH_RISK_TXNS" ∧ lr.COUNT = r.HIGH_RISK_TXNS)) := by
  constructor
  · simp only [meltTotalHigh, List.length_append, List.length_map]
    omega
  · intro lr hlr
    simp only [meltTotalHigh, List.mem_append, List.mem_map] at hlr
    rcases hlr with ⟨r, hr, rfl⟩ | ⟨r, hr, rfl⟩
    · exact ⟨r, hr, rfl, Or.inl ⟨rfl, rfl⟩⟩
    · exact ⟨r, hr, rfl, Or.inr ⟨rfl, rfl⟩⟩

/-- C9: the SQL strings passed to run_query are fixed literals; any two
render passes, whatever the selector state, execute the identical sequence
of SQL statements. -/
theorem sql_static (s1 s2 : Selections) :
    sqlQueriesExecuted s1 = sqlQueriesExecuted s2 := rfl

/-- C4: on both the trend and drill-down tables the derivation layer sets
YEAR to each timestamp's calendar year and MONTH (an integer in 1..12) to
its calendar month, and re-running the derivation over an already-derived
table leaves it unchanged. -/
theorem calendar_derivation (t : List RawTrendRow) (d : List RawDashRow) :
    ((deriveTrend t).map TrendRow.YEAR = t.map (fun r => yearOfDays r.TXN_DATE)) ∧
    ((deriveTrend t).map TrendRow.MONTH = t.map (fun r => monthOfDays r.TXN_DATE)) ∧
    (∀ row ∈ deriveTrend t, 1 ≤ row.MONTH ∧ row.MONTH ≤ 12) ∧
    deriveTrendAgain (deriveTrend t) = deriveTrend t ∧
    ((deriveDash d).map DashRow.YEAR = d.map (fun r => yearOfDays r.TXN_TIME)) ∧
    ((deriveDash d).map DashRow.MONTH = d.map (fun r => monthOfDays r.TXN_TIME)) ∧
    (∀ row ∈ deriveDash d, 1 ≤ row.MONTH ∧ row.MONTH ≤ 12) ∧
    deriveDashAgain (deriveDash d) = deriveDash d := by
  refine ⟨?_, ?_, ?_, ?_, ?_, ?_, ?_, ?_⟩
  · rw [deriveTrend, List.map_map]; rfl
  · rw [deriveTrend, List.map_map]; rfl
  · intro row hrow
    rw [deriveTrend, List.mem_map] at hrow
    obtain ⟨r, -, rfl⟩ := hrow
    exact month_bounds r.TXN_DATE
  · rw [deriveTrendAgain, deriveTrend, List.map_map]; rfl
  · rw [deriveDash, List.map_map]; rfl
  · rw [deriveDash, List.map_map]; rfl
  · intro row hrow
    rw [deriveDash, List.mem_map] at hrow
    obtain ⟨r, -, rfl⟩ := hrow
    exact month_bounds r.TXN_TIME
  · rw [deriveDashAgain, deriveDash, List.map_map]; rfl

/-- Splitting the HIGH_RISK_TXNS column sum of a trend table along a
boolean predicate. -/
theorem sum_split (t : List TrendRow) (p : TrendRow → Bool) :
    ((t.filter p).map TrendRow.HIGH_RISK_TXNS).sum
      + ((t.filter (fun r => !(p r))).map TrendRow.HIGH_RISK_TXNS).sum
      = (t.map TrendRow.HIGH_RISK_TXNS).sum := by
  induction t with
  | nil => rfl
  | cons a t ih =>
    by_cases h : p a = true <;> simp [List.filter_cons, h] <;> omega

/-- Summing the per-key filtered sums over a duplicate-free key list that
covers every row's YEAR recovers the whole column sum. -/
theorem sum_over_keys (keys : List Nat) (t : List TrendRow)
    (hnd : keys.Nodup) (hcov : ∀ r ∈ t, r.YEAR ∈ keys) :
    (keys.map
      (fun y => ((t.filter (fun r => r.YEAR = y)).map TrendRow.HIGH_RISK_TXNS).sum)).sum
      = (t.map TrendRow.HIGH_RISK_TXNS).sum := by
  induction keys generalizing t with
  | nil =>
    cases t with
    | nil => rfl
    | cons a t => exact absurd (hcov a (List.mem_cons_self a t)) (List.not_mem_nil _)
  | cons y ks ih =>
    have hnd' := List.nodup_cons.mp hnd
    have hmap : ∀ y' ∈ ks,
        ((t.filter (fun r => r.YEAR = y')).map TrendRow.HIGH_RISK_TXNS).sum
          = (((t.filter (fun r => !(decide (r.YEAR = y)))).filter
              (fun r => r.YEAR = y')).map TrendRow.HIGH_RISK_TXNS).sum := by
      intro y' hy'
      have hne : y' ≠ y := fun h => hnd'.1 (h ▸ hy')
      rw [List.filter_filter]
      have heq : t.filter (fun r => decide (r.YEAR = y'))
          = t.filter (fun a => decide (a.YEAR = y') && !decide (a.YEAR = y)) := by
        apply List.filter_congr
        intro r _
        by_cases h : r.YEAR = y' <;> simp [h, hne]
      rw [heq]
    have hcov' : ∀ r ∈ t.filter (fun r => !(decide (r.YEAR = y))), r.YEAR ∈ ks := by
      intro r hr
      have hmem := List.mem_filter.mp hr
      have h2 : r.YEAR ≠ y := by simpa using hmem.2
      have h3 := hcov r hmem.1
      simp only [List.mem_cons] at h3
      tauto
    rw [List.map_cons, List.sum_cons, List.map_congr_left hmap,
      ih (t.filter (fun r => !(decide (r.YEAR = y)))) hnd'.2 hcov']
    exact sum_split t (fun r => decide (r.YEAR = y))

/-- C3: the group-by-sum of HIGH_RISK_TXNS over YEAR preserves the total
column sum, and its output carries exactly one row per distinct YEAR value
occurring in the table. -/
theorem aggregation_mass_and_keys (t : List TrendRow) :
    ((groupbySumYearHigh t).map Prod.snd).sum = (t.map TrendRow.HIGH_RISK_TXNS).sum ∧
    ((groupbySumYearHigh t).map Prod.fst).Nodup ∧
    (∀ y, y ∈ (groupbySumYearHigh t).map Prod.fst ↔ y ∈ t.map TrendRow.YEAR) := by
  refine ⟨?_, ?_, ?_⟩
  · rw [groupbySumYearHigh, List.map_map]
    exact sum_over_keys (t.map TrendRow.YEAR).dedup t (List.nodup_dedup _)
      (fun r hr => List.mem_dedup.mpr (List.mem_map_of_mem _ hr))
  · rw [groupbySumYearHigh, List.map_map]
    have hid : (Prod.fst ∘ fun y : Nat =>
        (y, ((t.filter (fun r => r.YEAR = y)).map TrendRow.HIGH_RISK_TXNS).sum)) = id := rfl
    rw [hid, List.map_id]
    exact List.nodup_dedup _
  · intro y
    rw [groupbySumYearHigh, List.map_map]
    simp [Function.comp, List.mem_dedup]

/-- Applying a sequence of the indexed filters one after the other equals
one pass of their conjunction. -/
theorem applySeq_eq_filter_all (year month : Nat) (city risk : String)
    (order : List (Fin 4)) (t : List DashRow) :
    applySeq year month city risk order t
      = t.filter (fun r => order.all (fun i => filterPredIdx year month city risk i r)) := by
  induction order generalizing t with
  | nil => simp [applySeq]
  | cons i is ih =>
    rw [applySeq, ih, List.filter_filter]
    apply List.filter_congr
    intro r _
    simp [List.all_cons, Bool.and_comm]

/-- The conjunction of the four indexed predicates coincides with the
row predicate of the cascading filter. -/
theorem all_four_iff (year month : Nat) (city risk : String) (r : DashRow) :
    (([0, 1, 2, 3] : List (Fin 4)).all
        (fun i => filterPredIdx year month city risk i r)) = true
      ↔ rowPred year month city risk r := by
  simp [filterPredIdx, rowPred]

/-- C5: applying the four filters (year, month, city, risk level) in any
order yields the same set of rows as the program's cascading order. -/
theorem filter_order_irrelevant (dash : List DashRow) (year month : Nat)
    (city risk : String) (order : List (Fin 4)) (r : DashRow)
    (h : order.Perm [0, 1, 2, 3]) :
    r ∈ applySeq year month city risk order dash ↔
      r ∈ filtered_df dash year month city risk := by
  rw [applySeq_eq_filter_all, filtered_df_eq_filter]
  simp only [List.mem_filter]
  constructor
  · rintro ⟨hm, hall⟩
    refine ⟨hm, ?_⟩
    have h4 : (([0, 1, 2, 3] : List (Fin 4)).all
        (fun i => filterPredIdx year month city risk i r)) = true :=
      List.all_eq_true.mpr
        (fun i hi => List.all_eq_true.mp hall i (h.mem_iff.mpr hi))
    simpa using (all_four_iff year month city risk r).mp h4
  · rintro ⟨hm, hp⟩
    refine ⟨hm, ?_⟩
    have h4 : (([0, 1, 2, 3] : List (Fin 4)).all
        (fun i => filterPredIdx year month city risk i r)) = true :=
      (all_four_iff year month city risk r).mpr (by simpa using hp)
    exact List.all_eq_true.mpr
      (fun i hi => List.all_eq_true.mp h4 i (h.mem_iff.mp hi))

theorem filter_order_irrelevant_witness :
    wRow1 ∈ applySeq 2023 1 "NYC" "HIGH_RISK" [3, 2, 1, 0] wTable ↔
      wRow1 ∈ filtered_df wTable 2023 1 "NYC" "HIGH_RISK" :=
  filter_order_irrelevant wTable 2023 1 "NYC" "HIGH_RISK" [3, 2, 1, 0] wRow1
    (by decide)
